import Mathlib

/-!
Verification of the EHCI (USB 2.0) host-controller driver of CrabEFI
(`src/drivers/usb/ehci.rs`).

The driver's pure computations (qTD token construction, completion and
error decoding, byte accounting, toggle bookkeeping, device-table
management) are embedded as executable Lean functions, translated
line-by-line from the Rust source.  The driver's interaction with the
hardware registers and with the async schedule is embedded as a trace of
register operations (`RegOp`): reads take the value the hardware would
return as an input (so the hardware is adversarial), and writes/delays
are recorded in the order the code performs them.  Machine integers are
modelled as `Nat`; all Rust bit operations (`|`, `&`, `!`, `<<`, `>>`)
are mirrored with the corresponding `Nat` bitwise operations, and the
32-bit complement `!x` is written `not32 x = 0xFFFFFFFF ^^^ x`.
-/

namespace Ehci

/-- Modelled from the spec: the `UsbError` enum lives in the USB core
module (`src/drivers/usb/core.rs`), which is not part of the provided
source tree; its variants are exactly the error taxonomy of spec section 7,
and each variant below is used by `ehci.rs`. -/
inductive UsbError where
  | NotReady
  | AllocationFailed
  | Timeout
  | Stall
  | TransactionError
  | DeviceNotFound
  | InvalidParameter
  | NoFreeSlots
deriving DecidableEq, Repr

deriving instance DecidableEq for Except

/-! ### Register offsets and bit constants (ehci.rs lines 39-145) -/

/-- Operational register offset: USB Command (op_regs::USBCMD). -/
def USBCMD : Nat := 0x00

/-- Operational register offset: USB Status (op_regs::USBSTS). -/
def USBSTS : Nat := 0x04

/-- Operational register offset: Configured Flag (op_regs::CONFIGFLAG). -/
def CONFIGFLAG : Nat := 0x40

/-- usbcmd::RS - Run/Stop. -/
def RS : Nat := 1 <<< 0

/-- usbcmd::HCRESET - Host Controller Reset. -/
def HCRESET : Nat := 1 <<< 1

/-- usbcmd::PSE - Periodic Schedule Enable. -/
def PSE : Nat := 1 <<< 4

/-- usbcmd::ASE - Async Schedule Enable. -/
def ASE : Nat := 1 <<< 5

/-- usbcmd::IAAD - Interrupt on Async Advance Doorbell. -/
def IAAD : Nat := 1 <<< 6

/-- usbsts::IAA - Interrupt on Async Advance. -/
def IAA : Nat := 1 <<< 5

/-- usbsts::HCHALTED - Host Controller Halted. -/
def HCHALTED : Nat := 1 <<< 12

/-- usbsts::PSS - Periodic Schedule Status. -/
def PSS : Nat := 1 <<< 14

/-- usbsts::ASS - Async Schedule Status. -/
def ASS : Nat := 1 <<< 15

/-- portsc::CCS - Current Connect Status. -/
def CCS : Nat := 1 <<< 0

/-- portsc::CSC - Connect Status Change. -/
def CSC : Nat := 1 <<< 1

/-- portsc::PE - Port Enabled. -/
def PE : Nat := 1 <<< 2

/-- portsc::PEC - Port Enable Change. -/
def PEC : Nat := 1 <<< 3

/-- portsc::OCC - Over-current Change. -/
def OCC : Nat := 1 <<< 5

/-- portsc::PR - Port Reset. -/
def PR : Nat := 1 <<< 8

/-- portsc::LS_MASK - Line Status (bits 10-11). -/
def LS_MASK : Nat := 3 <<< 10

/-- portsc::LS_KSTATE - Line Status K-state. -/
def LS_KSTATE : Nat := 2 <<< 10

/-- portsc::PO - Port Owner (1 = companion controller). -/
def PO : Nat := 1 <<< 13

/-- portsc::W1C_MASK - Write-1-to-clear bits (CSC | PEC | OCC). -/
def W1C_MASK : Nat := CSC ||| PEC ||| OCC

/-- Bitwise complement of a u32 value, as Rust `!x` on `u32`. -/
def not32 (x : Nat) : Nat := 0xFFFFFFFF ^^^ x

/-! ### qTD token constants (QueueTransferDescriptor, lines 237-255) -/

/-- PID code OUT (0 << 8). -/
def PID_OUT : Nat := 0 <<< 8

/-- PID code IN (1 << 8). -/
def PID_IN : Nat := 1 <<< 8

/-- PID code SETUP (2 << 8). -/
def PID_SETUP : Nat := 2 <<< 8

/-- Token bit: Active. -/
def TOKEN_ACTIVE : Nat := 1 <<< 7

/-- Token bit: Halted. -/
def TOKEN_HALTED : Nat := 1 <<< 6

/-- Token bit: Data Buffer Error. -/
def TOKEN_DATA_BUFFER_ERROR : Nat := 1 <<< 5

/-- Token bit: Babble. -/
def TOKEN_BABBLE : Nat := 1 <<< 4

/-- Token bit: Transaction Error. -/
def TOKEN_XACT_ERROR : Nat := 1 <<< 3

/-- TOKEN_ERROR_MASK = HALTED | DATA_BUFFER_ERROR | BABBLE | XACT_ERROR. -/
def TOKEN_ERROR_MASK : Nat :=
  TOKEN_HALTED ||| TOKEN_DATA_BUFFER_ERROR ||| TOKEN_BABBLE ||| TOKEN_XACT_ERROR

/-! ### Queue Transfer Descriptors (lines 221-332) -/

/-- Queue Transfer Descriptor (ehci.rs `QueueTransferDescriptor`,
32 bytes).  Buffer pointers are kept as the list of page pointers the
construction loop actually writes. -/
structure QTD where
  next_qtd : Nat
  alt_qtd : Nat
  token : Nat
  buffer_ptrs : List Nat
deriving DecidableEq, Repr

/-- The buffer-pointer fill loop of `QueueTransferDescriptor::data`
(lines 288-299): up to 5 page-spanning chunks. -/
def fill_buffer_ptrs : Nat → Nat → Nat → List Nat
  | _, _, 0 => []
  | addr, remaining, n + 1 =>
    if remaining = 0 then []
    else
      let page_offset := addr &&& 0xFFF
      let this_page := min (0x1000 - page_offset) remaining
      addr :: fill_buffer_ptrs (addr + this_page) (remaining - this_page) n

/-- `QueueTransferDescriptor::setup` (lines 257-272): SETUP stage qTD,
PID=SETUP, CERR=3, total bytes = 8, toggle from `data_toggle`. -/
def QTD.setup (setup_packet_addr : Nat) (data_toggle : Bool) : QTD :=
  let token0 := PID_SETUP ||| TOKEN_ACTIVE ||| (3 <<< 10) ||| (8 <<< 16)
  { next_qtd := 1
    alt_qtd := 1
    token := if data_toggle then token0 ||| (1 <<< 31) else token0
    buffer_ptrs := [setup_packet_addr] }

/-- `QueueTransferDescriptor::data` (lines 274-302): DATA stage qTD,
PID=IN/OUT by `is_in`, CERR=3, total bytes = `length & 0x7FFF`,
toggle from `data_toggle`. -/
def QTD.data (buffer length : Nat) (is_in data_toggle : Bool) : QTD :=
  let token0 := (if is_in then PID_IN else PID_OUT) ||| TOKEN_ACTIVE |||
    (3 <<< 10) ||| ((length &&& 0x7FFF) <<< 16)
  { next_qtd := 1
    alt_qtd := 1
    token := if data_toggle then token0 ||| (1 <<< 31) else token0
    buffer_ptrs := fill_buffer_ptrs buffer length 5 }

/-- `QueueTransferDescriptor::status` (lines 304-315): STATUS stage qTD,
PID=IN/OUT by `is_in`, CERR=3, IOC set, data toggle = 1. -/
def QTD.status (is_in : Bool) : QTD :=
  { next_qtd := 1
    alt_qtd := 1
    token := (if is_in then PID_IN else PID_OUT) ||| TOKEN_ACTIVE |||
      (3 <<< 10) ||| (1 <<< 15) ||| (1 <<< 31)
    buffer_ptrs := [] }

/-- `QueueTransferDescriptor::is_complete` (lines 318-320). -/
def is_complete (token : Nat) : Bool := decide (token &&& TOKEN_ACTIVE = 0)

/-- `QueueTransferDescriptor::has_error` (lines 323-325). -/
def has_error (token : Nat) : Bool := decide (token &&& TOKEN_ERROR_MASK ≠ 0)

/-- `QueueTransferDescriptor::bytes_transferred` (lines 328-331):
`original_length.saturating_sub((token >> 16) & 0x7FFF)`.
Saturating u32 subtraction coincides with truncated `Nat` subtraction. -/
def bytes_transferred (token original_length : Nat) : Nat :=
  original_length - ((token >>> 16) &&& 0x7FFF)

/-! ### Control transfer: qTD chain construction (lines 802-828) -/

/-- The qTD chain a control transfer builds: a SETUP qTD, an optional
DATA qTD and a STATUS qTD, with `status_addr` the address the STATUS qTD
is placed at (`qtd_base + qtd_count * 32`). -/
structure ControlChain where
  setup_qtd : QTD
  data_qtd : Option QTD
  status_qtd : QTD
  status_addr : Nat
deriving DecidableEq, Repr

/-- qTD-chain construction of `control_transfer_internal`
(lines 802-828): SETUP at `qtd_base`, DATA (if `data_len > 0`) at
`qtd_base + 32`, STATUS at `qtd_base + qtd_count * 32`, linked through
`next_qtd` in SETUP, DATA, STATUS order.  The STATUS direction is
`!is_in || data_len == 0` (line 818). -/
def build_control_chain (qtd_base data_buffer setup_packet_addr data_len : Nat)
    (is_in : Bool) : ControlChain :=
  let setup0 := QTD.setup setup_packet_addr false
  if 0 < data_len then
    let data0 := QTD.data data_buffer data_len is_in true
    let status0 := QTD.status (!is_in || decide (data_len = 0))
    { setup_qtd := { setup0 with next_qtd := qtd_base + 32 }
      data_qtd := some { data0 with next_qtd := qtd_base + 2 * 32 }
      status_qtd := status0
      status_addr := qtd_base + 2 * 32 }
  else
    let status0 := QTD.status (!is_in || decide (data_len = 0))
    { setup_qtd := { setup0 with next_qtd := qtd_base + 1 * 32 }
      data_qtd := none
      status_qtd := status0
      status_addr := qtd_base + 1 * 32 }

/-! ### Control transfer: completion decoding (lines 866-890) -/

/-- Result extraction of `control_transfer_internal` after the
completion wait and the doorbell handshake (lines 866-890).  The three
token arguments are the tokens of the SETUP, DATA and STATUS qTDs as
read back after the wait (the hardware owns them, so they are inputs);
`staging` is the content of the DMA staging buffer and `data` the
caller's buffer (`none` when no data stage was requested).  Returns the
transferred byte count together with the caller's buffer after the
copy-back. -/
def control_transfer_result (is_in : Bool) (data : Option (List Nat))
    (setup_token data_token status_token : Nat) (staging : List Nat) :
    Except UsbError (Nat × Option (List Nat)) :=
  if is_complete status_token = false then .error .Timeout
  else if has_error status_token || has_error setup_token then
    if status_token &&& TOKEN_HALTED ≠ 0 then .error .Stall
    else .error .TransactionError
  else
    match data with
    | some d =>
      if is_in then
        let transferred := bytes_transferred data_token d.length
        .ok (transferred, some (staging.take transferred ++ d.drop transferred))
      else .ok (d.length, some d)
    | none => .ok (0, none)

/-! ### Bulk transfer: completion decoding and toggle update
(lines 1013-1044) -/

/-- Tail of `bulk_transfer` after the completion wait and the unlink
(lines 1013-1044): decode the final qTD `token` (hardware-owned, so an
input), update the stored per-endpoint toggles only on success (the
stored toggle becomes the negation of the completed token's bit 31,
line 1029-1034), and copy `transferred` bytes out of the staging buffer
for IN transfers.  Returns the new `(bulk_in_toggle, bulk_out_toggle)`
pair and the transfer outcome. -/
def bulk_transfer_step (bulk_in_toggle bulk_out_toggle is_in : Bool)
    (data : List Nat) (token : Nat) (staging : List Nat) :
    (Bool × Bool) × Except UsbError (Nat × List Nat) :=
  if is_complete token = false then
    ((bulk_in_toggle, bulk_out_toggle), .error .Timeout)
  else if has_error token then
    if token &&& TOKEN_HALTED ≠ 0 then
      ((bulk_in_toggle, bulk_out_toggle), .error .Stall)
    else
      ((bulk_in_toggle, bulk_out_toggle), .error .TransactionError)
  else
    let transferred := bytes_transferred token data.length
    let new_toggle := decide (token >>> 31 ≠ 0)
    let toggles :=
      if is_in then (!new_toggle, bulk_out_toggle)
      else (bulk_in_toggle, !new_toggle)
    let out := if is_in then staging.take transferred ++ data.drop transferred
      else data
    (toggles, .ok (transferred, out))

/-! ### Register-operation traces

The driver's effects on the hardware are modelled as ordered traces of
register operations.  Values returned by register reads are inputs
(chosen adversarially); writes and delays record exactly what the code
does, in program order. -/

/-- One observable action of the driver. -/
inductive RegOp where
  /-- splice the transfer QH after the async head (link phase) -/
  | link
  /-- restore the head's horizontal link (unlink phase) -/
  | unlink
  /-- read of USBCMD returning `v` -/
  | readCmd (v : Nat)
  /-- write of `v` to USBCMD -/
  | writeCmd (v : Nat)
  /-- read of USBSTS returning `v` -/
  | readSts (v : Nat)
  /-- write of `v` to USBSTS -/
  | writeSts (v : Nat)
  /-- read of PORTSC[port] returning `v` -/
  | readPort (port v : Nat)
  /-- write of `v` to PORTSC[port] -/
  | writePort (port v : Nat)
  /-- write of `v` to CONFIGFLAG -/
  | writeCfg (v : Nat)
  /-- busy-wait of `ms` milliseconds -/
  | delay (ms : Nat)
  /-- call of `attach_device(port)` -/
  | attach (port : Nat)
deriving DecidableEq, Repr

/-- The IAA doorbell-confirmation poll of `control_transfer_internal`
(lines 856-863): read USBSTS until the IAA bit is set (then acknowledge
it by writing IAA back) or the 100 ms budget (`fuel` polls) expires.
`sts i` is the value the i-th read returns. -/
def pollIAA (sts : Nat → Nat) : Nat → Nat → List RegOp
  | 0, _ => []
  | fuel + 1, i =>
    RegOp.readSts (sts i) ::
      (if sts i &&& IAA ≠ 0 then [RegOp.writeSts IAA]
       else pollIAA sts fuel (i + 1))

/-- A bounded status poll of `cleanup` (the three
`while !timeout.is_expired()` loops): read USBSTS until `stop` holds of
the value read or the budget (`fuel` polls) expires. -/
def pollSts (stop : Nat → Bool) (sts : Nat → Nat) : Nat → Nat → List RegOp
  | 0, _ => []
  | fuel + 1, i =>
    RegOp.readSts (sts i) ::
      (if stop (sts i) then [] else pollSts stop sts fuel (i + 1))

/-- `true` exactly on write operations. -/
def is_write_op : RegOp → Bool
  | .writeCmd _ => true
  | .writeSts _ => true
  | .writePort _ _ => true
  | .writeCfg _ => true
  | _ => false

/-- `true` on a USBCMD write whose value has the IAAD doorbell bit set. -/
def is_iaad_write : RegOp → Bool
  | .writeCmd v => decide (v &&& IAAD ≠ 0)
  | _ => false

/-- `true` on a USBCMD write whose value has the HCRESET bit set. -/
def is_reset_write : RegOp → Bool
  | .writeCmd v => decide (v &&& HCRESET ≠ 0)
  | _ => false

/-- Trace-and-result model of `control_transfer_internal` from the
async-list insertion on (lines 831-890): link, bounded completion wait
(memory polling, not a register operation), unlink (line 849), doorbell
request (lines 852-854: read USBCMD as `cmd0`, write `cmd0 | IAAD`),
IAA confirmation poll (lines 856-863), then the result extraction of
`control_transfer_result`. -/
def control_transfer_model (cmd0 : Nat) (sts : Nat → Nat) (fuel : Nat)
    (is_in : Bool) (data : Option (List Nat))
    (setup_token data_token status_token : Nat) (staging : List Nat) :
    List RegOp × Except UsbError (Nat × Option (List Nat)) :=
  (RegOp.link :: RegOp.unlink :: RegOp.readCmd cmd0 ::
     RegOp.writeCmd (cmd0 ||| IAAD) :: pollIAA sts fuel 0,
   control_transfer_result is_in data setup_token data_token status_token
     staging)

/-- Trace-and-result model of `bulk_transfer` from the async-list
insertion on (lines 992-1044): link, bounded completion wait, unlink
(line 1010), and then directly the result extraction - the bulk path
performs no further register operation (no doorbell request, no IAA
poll) between the unlink and the return. -/
def bulk_transfer_model (bulk_in_toggle bulk_out_toggle is_in : Bool)
    (data : List Nat) (token : Nat) (staging : List Nat) :
    List RegOp × ((Bool × Bool) × Except UsbError (Nat × List Nat)) :=
  ([RegOp.link, RegOp.unlink],
   bulk_transfer_step bulk_in_toggle bulk_out_toggle is_in data token staging)

/-! ### Controller cleanup (lines 1109-1156) -/

/-- Trace model of `EhciController::cleanup` (lines 1109-1156):
read USBCMD (`c1`) and clear ASE, poll USBSTS until the ASS bit is clear
(budget `f1`, values `s1`); read USBCMD (`c2`) and clear PSE, poll until
the PSS bit is clear; read USBCMD (`c3`) and clear RS, poll until
HCHALTED is set; finally write 0 to CONFIGFLAG. -/
def cleanup_model (c1 c2 c3 : Nat) (s1 s2 s3 : Nat → Nat)
    (f1 f2 f3 : Nat) : List RegOp :=
  RegOp.readCmd c1 :: RegOp.writeCmd (c1 &&& not32 ASE) ::
    (pollSts (fun v => decide (v &&& ASS = 0)) s1 f1 0 ++
      RegOp.readCmd c2 :: RegOp.writeCmd (c2 &&& not32 PSE) ::
        (pollSts (fun v => decide (v &&& PSS = 0)) s2 f2 0 ++
          RegOp.readCmd c3 :: RegOp.writeCmd (c3 &&& not32 RS) ::
            (pollSts (fun v => decide (v &&& HCHALTED ≠ 0)) s3 f3 0 ++
              [RegOp.writeCfg 0])))

/-! ### Port enumeration (lines 573-625) -/

/-- Trace model of one iteration of `enumerate_ports` (lines 574-622)
for root port `port`.  `r0` is the initial PORTSC read; `r1`, `r2`, `r3`
are the values of the three further reads performed on the reset path
(before setting PR, before clearing PR, and for the post-reset PE
check).  `RegOp.attach port` marks the call of `attach_device`. -/
def enumerate_port (port r0 r1 r2 r3 : Nat) : List RegOp :=
  RegOp.readPort port r0 ::
    (if r0 &&& CCS = 0 then []
     else if r0 &&& LS_MASK = LS_KSTATE then
       [RegOp.writePort port (r0 ||| PO)]
     else
       RegOp.readPort port r1 ::
         RegOp.writePort port ((r1 &&& not32 PE) ||| PR) ::
           RegOp.delay 50 ::
             RegOp.readPort port r2 ::
               RegOp.writePort port (r2 &&& not32 PR) ::
                 RegOp.delay 10 ::
                   RegOp.readPort port r3 ::
                     (if r3 &&& PE = 0 then
                       [RegOp.writePort port (r3 ||| PO)]
                     else
                       [RegOp.writePort port (r3 ||| W1C_MASK),
                        RegOp.attach port]))

/-! ### Device table and address assignment (lines 393-411, 628-755) -/

/-- The controller state `attach_device` touches: the fixed 8-slot
device table (`devices: [Option<EhciDevice>; 8]`, reduced to the stored
device addresses) and the next free device address (`next_address`,
initialised to 1). -/
structure CtrlState where
  devices : List (Option Nat)
  next_address : Nat
deriving DecidableEq, Repr

/-- The device table and address counter as `EhciController::new` sets
them up (lines 474-475): all slots free, next address 1. -/
def initState : CtrlState :=
  { devices := List.replicate 8 none, next_address := 1 }

/-- `self.devices.iter().position(|d| d.is_none())` (lines 636-640). -/
def findFreeSlot (ds : List (Option Nat)) : Option Nat :=
  ds.findIdx? fun d => d.isNone

/-- State-transition model of `EhciController::attach_device`
(lines 628-755).  The control transfers it issues can each fail; the
oracle arguments supply their outcomes: `e1` for the initial 8-byte
GET_DESCRIPTOR (lines 647-654), `e2` for SET_ADDRESS (lines 659-666),
and `e3` for everything after the address-counter advance (lines
674-751, collapsed: none of those requests changes the table or the
counter, they only propagate errors).  Mirrors the code order: address
bound check first (lines 630-633), then the free-slot search (lines
636-640), then the transfers; `next_address` is advanced right after
SET_ADDRESS succeeds (line 671), and the device record (with the
assigned address) is stored only at the very end (line 753). -/
def attach_device (s : CtrlState) (e1 e2 e3 : Option UsbError) :
    CtrlState × Option UsbError :=
  let address := s.next_address
  if 128 ≤ address then (s, some UsbError.NoFreeSlots)
  else
    match findFreeSlot s.devices with
    | none => (s, some UsbError.NoFreeSlots)
    | some slot =>
      match e1 with
      | some e => (s, some e)
      | none =>
        match e2 with
        | some e => (s, some e)
        | none =>
          let s1 : CtrlState := { s with next_address := s.next_address + 1 }
          match e3 with
          | some e => (s1, some e)
          | none =>
            ({ s1 with devices := s1.devices.set slot (some address) }, none)

/-- Any sequence of `attach_device` calls from the freshly initialised
controller state, each with its own transfer-outcome oracle. -/
def run_attaches (es : List (Option UsbError × Option UsbError × Option UsbError)) :
    CtrlState :=
  es.foldl (fun s e => (attach_device s e.1 e.2.1 e.2.2).1) initState

/-! ### Arithmetic helper lemmas -/

/-- Oring a low field (below bit `k`) with a left-shifted field is plain
addition. -/
theorem lor_high {c k : Nat} (b : Nat) (hc : c < 2 ^ k) :
    c ||| b <<< k = b * 2 ^ k + c := by
  rw [Nat.shiftLeft_eq, Nat.or_comm, mul_comm b (2 ^ k)]
  exact (Nat.mul_add_lt_is_or hc b).symm

/-- Closed form of the DATA-stage qTD token for in-range lengths. -/
theorem data_token_eq (buffer length : Nat) (is_in data_toggle : Bool)
    (h : length < 2 ^ 15) :
    (QTD.data buffer length is_in data_toggle).token =
      (if data_toggle then 2 ^ 31 else 0) + length * 2 ^ 16 +
        (if is_in then 0xD80 else 0xC80) := by
  have hmask : length &&& 0x7FFF = length := by
    rw [show (0x7FFF : Nat) = 2 ^ 15 - 1 from rfl,
      Nat.and_pow_two_sub_one_of_lt_two_pow h]
  have hhi : length * 2 ^ 16 + 0xD80 < 2 ^ 31 := by omega
  have hhi2 : length * 2 ^ 16 + 0xC80 < 2 ^ 31 := by omega
  cases is_in <;> cases data_toggle <;>
    simp only [QTD.data, hmask, Bool.false_eq_true, if_false, if_true] <;>
    first
      | (rw [show PID_OUT ||| TOKEN_ACTIVE ||| 3 <<< 10 = 0xC80 from rfl,
          lor_high length (show (0xC80 : Nat) < 2 ^ 16 by norm_num)]
         first
           | omega
           | (rw [lor_high 1 hhi2]; omega))
      | (rw [show PID_IN ||| TOKEN_ACTIVE ||| 3 <<< 10 = 0xD80 from rfl,
          lor_high length (show (0xD80 : Nat) < 2 ^ 16 by norm_num)]
         first
           | omega
           | (rw [lor_high 1 hhi]; omega))

/-! ### Claim theorems -/

/-- C5: every control transfer builds its qTD chain as a SETUP qTD
(PID=SETUP, toggle 0, byte count 8), an optional DATA qTD (present
exactly when the caller passed data; PID=IN/OUT by the direction bit,
toggle 1, byte count = the request length, Interrupt-on-Complete unset)
and a STATUS qTD (direction opposite to the DATA stage, or IN when there
is no data stage; toggle 1, Interrupt-on-Complete set), chained through
the next pointers in SETUP, DATA, STATUS order.  Token fields are read
back positionally: PID = bits 8-9, IOC = bit 15, byte count =
bits 16-30, toggle = bit 31. -/
theorem c5_control_chain (qtd_base data_buffer sp data_len : Nat)
    (is_in : Bool) (ch : ControlChain) (hlen : data_len < 2 ^ 15)
    (hch : build_control_chain qtd_base data_buffer sp data_len is_in = ch) :
    ((ch.setup_qtd.token >>> 8) &&& 3 = 2) ∧
    (ch.setup_qtd.token.testBit 31 = false) ∧
    ((ch.setup_qtd.token >>> 16) &&& 0x7FFF = 8) ∧
    (0 < data_len → ∃ dq, ch.data_qtd = some dq ∧
      ((dq.token >>> 8) &&& 3 = if is_in then 1 else 0) ∧
      dq.token.testBit 31 = true ∧
      ((dq.token >>> 16) &&& 0x7FFF = data_len) ∧
      dq.token.testBit 15 = false ∧
      ch.setup_qtd.next_qtd = qtd_base + 32 ∧
      dq.next_qtd = ch.status_addr) ∧
    (data_len = 0 → ch.data_qtd = none ∧
      ch.setup_qtd.next_qtd = ch.status_addr) ∧
    ((ch.status_qtd.token >>> 8) &&& 3 =
      if 0 < data_len then (if is_in then 0 else 1) else 1) ∧
    ch.status_qtd.token.testBit 31 = true ∧
    ch.status_qtd.token.testBit 15 = true := by
  subst hch
  by_cases hd : 0 < data_len
  · have hd' : ¬data_len = 0 := by omega
    have hdec : decide (data_len = 0) = false := by simp [hd']
    cases is_in
    · have hT : (QTD.data data_buffer data_len false true).token =
          2 ^ 31 + data_len * 2 ^ 16 + 0xC80 := by
        rw [data_token_eq data_buffer data_len false true hlen]; simp
      simp only [build_control_chain, if_pos hd]
      refine ⟨?_, ?_, ?_, ?_, fun h => (hd' h).elim, ?_, ?_, ?_⟩
      · simp only [QTD.setup, Bool.false_eq_true, if_false]; decide
      · simp only [QTD.setup, Bool.false_eq_true, if_false]; decide
      · simp only [QTD.setup, Bool.false_eq_true, if_false]; decide
      · intro _
        refine ⟨_, rfl, ?_, ?_, ?_, ?_, by trivial, by trivial⟩ <;>
          rw [show ({ QTD.data data_buffer data_len false true with
                next_qtd := qtd_base + 2 * 32 } : QTD).token =
              (QTD.data data_buffer data_len false true).token from rfl, hT]
        · rw [Nat.shiftRight_eq_div_pow, show (3 : Nat) = 2 ^ 2 - 1 from rfl,
            Nat.and_pow_two_sub_one_eq_mod]
          simp only [Bool.false_eq_true, if_false]
          omega
        · rw [Nat.testBit_to_div_mod]
          simp only [decide_eq_true_eq]
          omega
        · rw [Nat.shiftRight_eq_div_pow,
            show (0x7FFF : Nat) = 2 ^ 15 - 1 from rfl,
            Nat.and_pow_two_sub_one_eq_mod]
          omega
        · rw [Nat.testBit_to_div_mod]
          simp only [decide_eq_false_iff_not]
          omega
      · simp only [QTD.status, Bool.not_false, Bool.true_or, if_pos hd]; decide
      · simp only [QTD.status, Bool.not_false, Bool.true_or]; decide
      · simp only [QTD.status, Bool.not_false, Bool.true_or]; decide
    · have hT : (QTD.data data_buffer data_len true true).token =
          2 ^ 31 + data_len * 2 ^ 16 + 0xD80 := by
        rw [data_token_eq data_buffer data_len true true hlen]; simp
      simp only [build_control_chain, if_pos hd]
      refine ⟨?_, ?_, ?_, ?_, fun h => (hd' h).elim, ?_, ?_, ?_⟩
      · simp only [QTD.setup, Bool.false_eq_true, if_false]; decide
      · simp only [QTD.setup, Bool.false_eq_true, if_false]; decide
      · simp only [QTD.setup, Bool.false_eq_true, if_false]; decide
      · intro _
        refine ⟨_, rfl, ?_, ?_, ?_, ?_, by trivial, by trivial⟩ <;>
          rw [show ({ QTD.data data_buffer data_len true true with
                next_qtd := qtd_base + 2 * 32 } : QTD).token =
              (QTD.data data_buffer data_len true true).token from rfl, hT]
        · rw [Nat.shiftRight_eq_div_pow, show (3 : Nat) = 2 ^ 2 - 1 from rfl,
            Nat.and_pow_two_sub_one_eq_mod]
          simp only [if_true]
          omega
        · rw [Nat.testBit_to_div_mod]
          simp only [decide_eq_true_eq]
          omega
        · rw [Nat.shiftRight_eq_div_pow,
            show (0x7FFF : Nat) = 2 ^ 15 - 1 from rfl,
            Nat.and_pow_two_sub_one_eq_mod]
          omega
        · rw [Nat.testBit_to_div_mod]
          simp only [decide_eq_false_iff_not]
          omega
      · simp only [QTD.status, Bool.not_true, Bool.false_or, hdec, if_pos hd]
        decide
      · simp only [QTD.status, Bool.not_true, Bool.false_or, hdec]; decide
      · simp only [QTD.status, Bool.not_true, Bool.false_or, hdec]; decide
  · have hd0 : data_len = 0 := by omega
    subst hd0
    have hb : build_control_chain qtd_base data_buffer sp 0 is_in =
        { setup_qtd := { QTD.setup sp false with next_qtd := qtd_base + 1 * 32 }
          data_qtd := none
          status_qtd := QTD.status (!is_in || decide ((0 : Nat) = 0))
          status_addr := qtd_base + 1 * 32 } := by
      simp only [build_control_chain]
      rw [if_neg (by omega)]
    rw [hb]
    cases is_in <;>
      refine ⟨?_, ?_, ?_, fun h => absurd h (by omega),
        fun _ => ⟨rfl, rfl⟩, ?_, ?_, ?_⟩ <;>
      simp only [QTD.setup, QTD.status, Bool.false_eq_true, if_false,
        Bool.not_false, Bool.not_true, Bool.true_or, Bool.false_or] <;>
      decide

/-- C8: a control transfer with an IN data stage completing without
error returns requested length minus the DATA qTD's residual byte count,
and exactly that many bytes are copied from the DMA staging buffer into
the caller's buffer (whose length is preserved); OUT and no-data
transfers copy nothing back and return the caller's data length (0 when
no buffer was passed). -/
theorem c8_control_copyback (data staging : List Nat)
    (setup_token data_token status_token : Nat)
    (hc : is_complete status_token = true)
    (he : has_error status_token = false)
    (he2 : has_error setup_token = false)
    (hres : (data_token >>> 16) &&& 0x7FFF ≤ data.length)
    (hstg : data.length ≤ staging.length) :
    control_transfer_result true (some data) setup_token data_token
        status_token staging =
      .ok (data.length - ((data_token >>> 16) &&& 0x7FFF),
        some (staging.take (data.length - ((data_token >>> 16) &&& 0x7FFF)) ++
          data.drop (data.length - ((data_token >>> 16) &&& 0x7FFF)))) ∧
    (staging.take (data.length - ((data_token >>> 16) &&& 0x7FFF)) ++
      data.drop (data.length - ((data_token >>> 16) &&& 0x7FFF))).length =
      data.length ∧
    control_transfer_result false (some data) setup_token data_token
        status_token staging = .ok (data.length, some data) ∧
    control_transfer_result true none setup_token data_token status_token
        staging = .ok (0, none) ∧
    control_transfer_result false none setup_token data_token status_token
        staging = .ok (0, none) := by
  refine ⟨?_, ?_, ?_, ?_, ?_⟩ <;>
    simp [control_transfer_result, hc, he, he2, bytes_transferred]
  omega

/-- C10: the byte count a successful bulk or control transfer returns
never exceeds the caller's buffer length, even when the hardware-written
residual byte count exceeds the requested length (the subtraction
saturates at zero), so the copy back never writes past the buffer's
end. -/
theorem c10_no_overrun (tin tout is_in : Bool) (data staging d2 stg2 : List Nat)
    (token st dt stt : Nat) :
    bytes_transferred token data.length ≤ data.length ∧
    (∀ n out, (bulk_transfer_step tin tout is_in data token staging).2 =
        .ok (n, out) → n ≤ data.length) ∧
    (∀ n out, control_transfer_result is_in (some d2) st dt stt stg2 =
        .ok (n, out) → n ≤ d2.length) := by
  refine ⟨Nat.sub_le _ _, ?_, ?_⟩
  · intro n out h
    by_cases h1 : is_complete token = false
    · simp [bulk_transfer_step, h1] at h
    · by_cases h2 : has_error token = true
      · by_cases h3 : token &&& TOKEN_HALTED ≠ 0 <;>
          simp [bulk_transfer_step, h1, h2, h3] at h
      · simp [bulk_transfer_step, h1, h2] at h
        obtain ⟨hn, -⟩ := h
        subst hn
        exact Nat.sub_le _ _
  · intro n out h
    by_cases h1 : is_complete stt = false
    · simp [control_transfer_result, h1] at h
    · by_cases h2 : (has_error stt || has_error st) = true
      · by_cases h3 : stt &&& TOKEN_HALTED ≠ 0 <;>
          simp [control_transfer_result, h1, h2, h3] at h
      · cases is_in <;> simp [control_transfer_result, h1, h2] at h
        · omega
        · obtain ⟨hn, -⟩ := h
          subst hn
          exact Nat.sub_le _ _

/-- C1 (amended): after a bulk transfer that completes without error,
the stored per-endpoint toggle equals the NEGATION of the data-toggle
bit (bit 31) of the completed qTD token (`dev.bulk_in_toggle =
!new_toggle`, lines 1028-1035); on any bulk-transfer error (timeout,
stall, transaction error) the stored toggles are left unchanged. -/
theorem c1_toggle_update (tin tout is_in : Bool) (data staging : List Nat)
    (token : Nat) (h32 : token < 2 ^ 32) :
    (is_complete token = true → has_error token = false →
      (bulk_transfer_step tin tout is_in data token staging).1 =
        if is_in then (!token.testBit 31, tout)
        else (tin, !token.testBit 31)) ∧
    (is_complete token = false ∨ has_error token = true →
      (bulk_transfer_step tin tout is_in data token staging).1 = (tin, tout)) := by
  have hbit : decide (token >>> 31 ≠ 0) = token.testBit 31 := by
    rw [Nat.testBit_to_div_mod, Nat.shiftRight_eq_div_pow, decide_eq_decide]
    omega
  constructor
  · intro hc he
    simp [bulk_transfer_step, hc, he, hbit]
  · rintro (h | h)
    · simp [bulk_transfer_step, h]
    · by_cases h1 : is_complete token = false
      · simp [bulk_transfer_step, h1]
      · by_cases h3 : token &&& TOKEN_HALTED ≠ 0 <;>
          simp [bulk_transfer_step, h1, h, h3]

/-- C1 counterexample: a successful IN bulk transfer whose completed
qTD token has toggle bit 31 = 1 leaves the stored toggle at `false` -
the stored toggle is the complement of the token's toggle bit, not equal
to it, and here it moreover equals the toggle the transfer started
with. -/
theorem c1_counterexample :
    is_complete (2 ^ 31) = true ∧ has_error (2 ^ 31) = false ∧
    Nat.testBit (2 ^ 31) 31 = true ∧
    (bulk_transfer_step false false true [0, 0] (2 ^ 31) [1, 2]).2 =
      .ok (2, [1, 2]) ∧
    (bulk_transfer_step false false true [0, 0] (2 ^ 31) [1, 2]).1.1 = false := by
  decide

/-- C4 (amended): for bulk transfers the completed qTD's Halted bit
decides Stall versus TransactionError exactly as claimed; for control
transfers the decision inspects only the STATUS qTD's Halted bit (an
error bit in either the STATUS or the SETUP token enters the error path,
but a halted SETUP with a clean STATUS yields TransactionError, not
Stall); and in the control path the QH unlink event is always in the
trace when an error is returned. -/
theorem c4_error_mapping :
    (∀ (tin tout is_in : Bool) (data staging : List Nat) (token : Nat),
      is_complete token = true → has_error token = true →
      (token &&& TOKEN_HALTED ≠ 0 →
        (bulk_transfer_step tin tout is_in data token staging).2 =
          .error UsbError.Stall) ∧
      (token &&& TOKEN_HALTED = 0 →
        (bulk_transfer_step tin tout is_in data token staging).2 =
          .error UsbError.TransactionError)) ∧
    (∀ (is_in : Bool) (data : Option (List Nat)) (st dt stt : Nat)
        (staging : List Nat),
      is_complete stt = true → (has_error stt || has_error st) = true →
      (stt &&& TOKEN_HALTED ≠ 0 →
        control_transfer_result is_in data st dt stt staging =
          .error UsbError.Stall) ∧
      (stt &&& TOKEN_HALTED = 0 →
        control_transfer_result is_in data st dt stt staging =
          .error UsbError.TransactionError)) ∧
    (∀ (cmd0 : Nat) (sts : Nat → Nat) (fuel : Nat) (is_in : Bool)
        (data : Option (List Nat)) (st dt stt : Nat) (staging : List Nat)
        (e : UsbError),
      (control_transfer_model cmd0 sts fuel is_in data st dt stt staging).2 =
        .error e →
      RegOp.unlink ∈
        (control_transfer_model cmd0 sts fuel is_in data st dt stt staging).1) := by
  refine ⟨?_, ?_, ?_⟩
  · intro tin tout is_in data staging token hc he
    constructor <;> intro hh <;> simp [bulk_transfer_step, hc, he, hh]
  · intro is_in data st dt stt staging hc he
    constructor <;> intro hh <;> simp [control_transfer_result, hc, he, hh]
  · intro cmd0 sts fuel is_in data st dt stt staging e _
    simp [control_transfer_model]

/-- C4 counterexample: a completed control transfer whose SETUP qTD
token has the Halted bit set (status token clean) returns
TransactionError, although the claim, which keys Stall on the Halted bit
of the transfer's errored qTD token, demands Stall. -/
theorem c4_counterexample :
    is_complete 0 = true ∧ has_error TOKEN_HALTED = true ∧
    TOKEN_HALTED &&& TOKEN_HALTED ≠ 0 ∧
    control_transfer_result true (some [0]) TOKEN_HALTED 0 0 [0] =
      .error UsbError.TransactionError := by
  decide

/-- The IAA poll contributes nothing to a filter that rejects USBSTS
reads and writes. -/
theorem pollIAA_filter (sts : Nat → Nat) (p : RegOp → Bool)
    (h1 : ∀ v, p (RegOp.readSts v) = false)
    (h2 : ∀ v, p (RegOp.writeSts v) = false) :
    ∀ fuel i, (pollIAA sts fuel i).filter p = [] := by
  intro fuel
  induction fuel with
  | zero => intro i; simp [pollIAA]
  | succ n ih =>
    intro i
    rw [pollIAA, List.filter_cons, h1]
    simp only [Bool.false_eq_true, if_false]
    split
    · simp [List.filter_cons, h2]
    · exact ih (i + 1)

/-- A cleanup status poll contributes nothing to a filter that rejects
USBSTS reads. -/
theorem pollSts_filter (stop : Nat → Bool) (sts : Nat → Nat) (p : RegOp → Bool)
    (h1 : ∀ v, p (RegOp.readSts v) = false) :
    ∀ fuel i, (pollSts stop sts fuel i).filter p = [] := by
  intro fuel
  induction fuel with
  | zero => intro i; simp [pollSts]
  | succ n ih =>
    intro i
    rw [pollSts, List.filter_cons, h1]
    simp only [Bool.false_eq_true, if_false]
    split
    · simp
    · exact ih (i + 1)

/-- C3 counterexample: a control transfer whose STATUS qTD never
completes returns Timeout, but the register-operation trace contains no
write with the controller-reset bit (HCRESET) set - the claimed scoped
controller reset (issued exactly once) never happens. -/
theorem c3_counterexample :
    (control_transfer_model 0x21 (fun _ => IAA) 1 true none 0 0 TOKEN_ACTIVE
      []).2 = .error UsbError.Timeout ∧
    ((control_transfer_model 0x21 (fun _ => IAA) 1 true none 0 0 TOKEN_ACTIVE
      []).1.filter is_reset_write).length = 0 := by
  decide

/-- C3 (amended): when the STATUS qTD's active bit never clears within
the 5000 ms budget, `control_transfer` returns Timeout; before the error
is surfaced, the Interrupt-on-Async-Advance doorbell is requested in
USBCMD exactly once, and no controller reset (HCRESET) is ever issued
(assuming the USBCMD value read back does not itself carry a stuck
HCRESET bit). -/
theorem c3_timeout_path (cmd0 : Nat) (sts : Nat → Nat) (fuel : Nat)
    (is_in : Bool) (data : Option (List Nat)) (st dt stt : Nat)
    (staging : List Nat) (h : is_complete stt = false)
    (hcmd : cmd0 &&& HCRESET = 0) :
    (control_transfer_model cmd0 sts fuel is_in data st dt stt staging).2 =
      .error UsbError.Timeout ∧
    (control_transfer_model cmd0 sts fuel is_in data st dt stt
      staging).1.filter is_iaad_write = [RegOp.writeCmd (cmd0 ||| IAAD)] ∧
    (control_transfer_model cmd0 sts fuel is_in data st dt stt
      staging).1.filter is_reset_write = [] := by
  have hIAAD : (cmd0 ||| IAAD) &&& IAAD ≠ 0 := by
    intro hcon
    have hb : ((cmd0 ||| IAAD) &&& IAAD).testBit 6 = false := by
      rw [hcon]; exact Nat.zero_testBit 6
    rw [Nat.testBit_and, Nat.testBit_or,
      show Nat.testBit IAAD 6 = true from by decide] at hb
    simp at hb
  have hbit1 : cmd0.testBit 1 = false := by
    have h2 := Nat.and_two_pow cmd0 1
    rw [show HCRESET = 2 ^ 1 from rfl] at hcmd
    cases hb : cmd0.testBit 1
    · rfl
    · rw [hb] at h2; simp at h2 hcmd; omega
  have h2bit : ∀ i, i ≠ 1 → Nat.testBit HCRESET i = false := by
    intro i hi
    rcases i with _ | _ | j
    · decide
    · exact absurd rfl hi
    · apply Nat.testBit_lt_two_pow
      have h1p : 1 ≤ 2 ^ j := Nat.one_le_two_pow
      have hh : HCRESET = 2 := rfl
      rw [hh]
      omega
  have hRES : (cmd0 ||| IAAD) &&& HCRESET = 0 := by
    apply Nat.eq_of_testBit_eq
    intro i
    rw [Nat.testBit_and, Nat.testBit_or, Nat.zero_testBit]
    by_cases hi : i = 1
    · subst hi
      rw [hbit1, show Nat.testBit IAAD 1 = false from by decide]
      rfl
    · rw [h2bit i hi, Bool.and_false]
  refine ⟨?_, ?_, ?_⟩
  · simp [control_transfer_model, control_transfer_result, h]
  · simp [control_transfer_model, List.filter_cons, is_iaad_write, hIAAD,
      pollIAA_filter sts is_iaad_write (fun v => rfl) (fun v => rfl)]
  · simp [control_transfer_model, List.filter_cons, is_reset_write, hRES,
      pollIAA_filter sts is_reset_write (fun v => rfl) (fun v => rfl)]

/-- C2 exhibit: after unlinking its QH, the bulk path performs no
register write at all - in particular it never requests the IAAD
doorbell, never polls IAA, and returns success directly - whereas the
control path does emit the doorbell write after its unlink.  This
evaluates both paths at a concrete successful transfer. -/
theorem c2_bulk_no_doorbell :
    (bulk_transfer_model false false true [0, 0] (2 ^ 31) [1, 2]).2.2 =
      .ok (2, [1, 2]) ∧
    (bulk_transfer_model false false true [0, 0] (2 ^ 31) [1, 2]).1.filter
      is_iaad_write = [] ∧
    (bulk_transfer_model false false true [0, 0] (2 ^ 31) [1, 2]).1.filter
      is_write_op = [] ∧
    RegOp.unlink ∈ (bulk_transfer_model false false true [0, 0] (2 ^ 31)
      [1, 2]).1 ∧
    (control_transfer_model 0x21 (fun _ => IAA) 1 true none 0 0 0 []).1.filter
      is_iaad_write = [RegOp.writeCmd (0x21 ||| IAAD)] := by
  decide

/-- C7: the only register writes `cleanup` performs are, in this
order, the ASE-clearing USBCMD write, the PSE-clearing USBCMD write, the
RS-clearing USBCMD write and finally the lone CONFIGFLAG := 0 write -
regardless of how many polls each bounded wait takes; and each bounded
wait does read USBSTS (shown for the first poll of each loop whenever
its budget is nonzero). -/
theorem c7_cleanup_ordering (c1 c2 c3 : Nat) (s1 s2 s3 : Nat → Nat)
    (f1 f2 f3 : Nat) :
    (cleanup_model c1 c2 c3 s1 s2 s3 f1 f2 f3).filter is_write_op =
      [RegOp.writeCmd (c1 &&& not32 ASE), RegOp.writeCmd (c2 &&& not32 PSE),
       RegOp.writeCmd (c3 &&& not32 RS), RegOp.writeCfg 0] ∧
    (0 < f1 →
      RegOp.readSts (s1 0) ∈ cleanup_model c1 c2 c3 s1 s2 s3 f1 f2 f3) ∧
    (0 < f2 →
      RegOp.readSts (s2 0) ∈ cleanup_model c1 c2 c3 s1 s2 s3 f1 f2 f3) ∧
    (0 < f3 →
      RegOp.readSts (s3 0) ∈ cleanup_model c1 c2 c3 s1 s2 s3 f1 f2 f3) := by
  refine ⟨?_, ?_, ?_, ?_⟩
  · simp [cleanup_model, List.filter_append, List.filter_cons, is_write_op,
      pollSts_filter _ _ is_write_op (fun v => rfl)]
  · intro hf
    obtain ⟨n, rfl⟩ : ∃ n, f1 = n + 1 := ⟨f1 - 1, by omega⟩
    simp [cleanup_model, pollSts]
  · intro hf
    obtain ⟨n, rfl⟩ : ∃ n, f2 = n + 1 := ⟨f2 - 1, by omega⟩
    simp [cleanup_model, pollSts]
  · intro hf
    obtain ⟨n, rfl⟩ : ∃ n, f3 = n + 1 := ⟨f3 - 1, by omega⟩
    simp [cleanup_model, pollSts]

/-- C6: for every root port visited by the enumeration pass: a clear
connect-status bit skips the port with no writes and no attach; a
K-state line status sets the port-owner bit and skips the port with no
reset pulse (no delay at all) and no attach; otherwise the port-reset
bit is set, held for 50 ms, then cleared, and a clear post-reset
Port-Enable bit sets the port-owner bit with no attach, while a set
Port-Enable bit leads to clearing the status-change bits and calling
attach_device. -/
theorem c6_port_classification (port r0 r1 r2 r3 : Nat) :
    (r0 &&& CCS = 0 →
      enumerate_port port r0 r1 r2 r3 = [RegOp.readPort port r0]) ∧
    (r0 &&& CCS ≠ 0 → r0 &&& LS_MASK = LS_KSTATE →
      enumerate_port port r0 r1 r2 r3 =
        [RegOp.readPort port r0, RegOp.writePort port (r0 ||| PO)] ∧
      (r0 ||| PO).testBit 13 = true ∧
      RegOp.attach port ∉ enumerate_port port r0 r1 r2 r3 ∧
      (∀ ms, RegOp.delay ms ∉ enumerate_port port r0 r1 r2 r3)) ∧
    (r0 &&& CCS ≠ 0 → r0 &&& LS_MASK ≠ LS_KSTATE →
      ((r1 &&& not32 PE) ||| PR).testBit 8 = true ∧
      (r2 &&& not32 PR).testBit 8 = false ∧
      (r3 &&& PE = 0 →
        enumerate_port port r0 r1 r2 r3 =
          [RegOp.readPort port r0, RegOp.readPort port r1,
           RegOp.writePort port ((r1 &&& not32 PE) ||| PR), RegOp.delay 50,
           RegOp.readPort port r2, RegOp.writePort port (r2 &&& not32 PR),
           RegOp.delay 10, RegOp.readPort port r3,
           RegOp.writePort port (r3 ||| PO)] ∧
        (r3 ||| PO).testBit 13 = true ∧
        RegOp.attach port ∉ enumerate_port port r0 r1 r2 r3) ∧
      (r3 &&& PE ≠ 0 →
        enumerate_port port r0 r1 r2 r3 =
          [RegOp.readPort port r0, RegOp.readPort port r1,
           RegOp.writePort port ((r1 &&& not32 PE) ||| PR), RegOp.delay 50,
           RegOp.readPort port r2, RegOp.writePort port (r2 &&& not32 PR),
           RegOp.delay 10, RegOp.readPort port r3,
           RegOp.writePort port (r3 ||| W1C_MASK), RegOp.attach port])) := by
  have hPO : ∀ x : Nat, (x ||| PO).testBit 13 = true := by
    intro x
    rw [Nat.testBit_or, show Nat.testBit PO 13 = true from by decide,
      Bool.or_true]
  have hPR : ∀ x : Nat, ((x &&& not32 PE) ||| PR).testBit 8 = true := by
    intro x
    rw [Nat.testBit_or, show Nat.testBit PR 8 = true from by decide,
      Bool.or_true]
  have hPRc : ∀ x : Nat, (x &&& not32 PR).testBit 8 = false := by
    intro x
    rw [Nat.testBit_and, show Nat.testBit (not32 PR) 8 = false from by decide,
      Bool.and_false]
  refine ⟨?_, ?_, ?_⟩
  · intro h0
    simp [enumerate_port, h0]
  · intro h0 hk
    have htr : enumerate_port port r0 r1 r2 r3 =
        [RegOp.readPort port r0, RegOp.writePort port (r0 ||| PO)] := by
      simp [enumerate_port, h0, hk]
    refine ⟨htr, hPO r0, ?_, ?_⟩
    · rw [htr]; simp
    · intro ms; rw [htr]; simp
  · intro h0 hk
    refine ⟨hPR r1, hPRc r2, ?_, ?_⟩
    · intro h3
      have htr : enumerate_port port r0 r1 r2 r3 =
          [RegOp.readPort port r0, RegOp.readPort port r1,
           RegOp.writePort port ((r1 &&& not32 PE) ||| PR), RegOp.delay 50,
           RegOp.readPort port r2, RegOp.writePort port (r2 &&& not32 PR),
           RegOp.delay 10, RegOp.readPort port r3,
           RegOp.writePort port (r3 ||| PO)] := by
        simp [enumerate_port, h0, hk, h3]
      refine ⟨htr, hPO r3, ?_⟩
      rw [htr]; simp
    · intro h3
      simp [enumerate_port, h0, hk, h3]

/-- No two filled slots of a device table hold the same address. -/
abbrev DistinctAddrs (ds : List (Option Nat)) : Prop :=
  ∀ (i j a : Nat), i < j → ds[i]? = some (some a) → ds[j]? ≠ some (some a)

/-- Invariant tying the device table to the address counter. -/
abbrev AddrInv (s : CtrlState) : Prop :=
  1 ≤ s.next_address ∧ s.next_address ≤ 128 ∧
  (∀ a, some a ∈ s.devices → 1 ≤ a ∧ a < s.next_address) ∧
  DistinctAddrs s.devices

theorem addrInv_init : AddrInv initState := by
  refine ⟨by norm_num [initState], by norm_num [initState], ?_, ?_⟩
  · intro a ha
    simp [initState, List.mem_replicate] at ha
  · intro i j a hij hi
    simp only [initState] at hi
    rw [List.getElem?_replicate] at hi
    split at hi <;> simp at hi

theorem addrInv_attach (s : CtrlState) (e1 e2 e3 : Option UsbError)
    (h : AddrInv s) : AddrInv (attach_device s e1 e2 e3).1 := by
  obtain ⟨h1, h2, h3, h4⟩ := h
  by_cases hlt : 128 ≤ s.next_address
  · simp only [attach_device, if_pos hlt]
    exact ⟨h1, h2, h3, h4⟩
  · cases hslot : findFreeSlot s.devices with
    | none =>
      simp only [attach_device, if_neg hlt, hslot]
      exact ⟨h1, h2, h3, h4⟩
    | some slot =>
      cases e1 with
      | some e =>
        simp only [attach_device, if_neg hlt, hslot]
        exact ⟨h1, h2, h3, h4⟩
      | none =>
        cases e2 with
        | some e =>
          simp only [attach_device, if_neg hlt, hslot]
          exact ⟨h1, h2, h3, h4⟩
        | none =>
          cases e3 with
          | some e =>
            simp only [attach_device, if_neg hlt, hslot]
            refine ⟨(by omega : 1 ≤ s.next_address + 1),
              (by omega : s.next_address + 1 ≤ 128), ?_, h4⟩
            intro a ha
            have := h3 a ha
            exact (by omega : 1 ≤ a ∧ a < s.next_address + 1)
          | none =>
            simp only [attach_device, if_neg hlt, hslot]
            refine ⟨(by omega : 1 ≤ s.next_address + 1),
              (by omega : s.next_address + 1 ≤ 128), ?_, ?_⟩
            · intro a ha
              rcases List.mem_or_eq_of_mem_set ha with hmem | heq
              · have := h3 a hmem
                exact (by omega : 1 ≤ a ∧ a < s.next_address + 1)
              · injection heq with heq'
                exact (by omega : 1 ≤ a ∧ a < s.next_address + 1)
            · show DistinctAddrs (s.devices.set slot (some s.next_address))
              intro i j a hij hi
              rcases eq_or_ne slot i with rfl | hne_i
              · rw [List.getElem?_set] at hi
                simp only [if_pos rfl] at hi
                by_cases hlen : slot < s.devices.length
                · rw [if_pos hlen] at hi
                  injection hi with hi'
                  injection hi' with hi''
                  rw [List.getElem?_set_ne (by omega : slot ≠ j)]
                  intro hcon
                  have := h3 a (List.getElem?_mem hcon)
                  omega
                · rw [if_neg hlen] at hi
                  simp at hi
              · rcases eq_or_ne slot j with rfl | hne_j
                · rw [List.getElem?_set_ne hne_i] at hi
                  rw [List.getElem?_set]
                  simp only [if_pos rfl]
                  by_cases hlen : slot < s.devices.length
                  · rw [if_pos hlen]
                    intro hcon
                    injection hcon with h'
                    injection h' with h''
                    have := h3 a (List.getElem?_mem hi)
                    omega
                  · rw [if_neg hlen]
                    simp
                · rw [List.getElem?_set_ne hne_i] at hi
                  rw [List.getElem?_set_ne hne_j]
                  exact h4 i j a hij hi

theorem addrInv_run
    (es : List (Option UsbError × Option UsbError × Option UsbError)) :
    AddrInv (run_attaches es) := by
  have key : ∀ (l : List (Option UsbError × Option UsbError × Option UsbError))
      (s : CtrlState), AddrInv s →
      AddrInv (l.foldl (fun s e => (attach_device s e.1 e.2.1 e.2.2).1) s) := by
    intro l
    induction l with
    | nil => intro s hs; exact hs
    | cons e t ih =>
      intro s hs
      exact ih _ (addrInv_attach s e.1 e.2.1 e.2.2 hs)
  exact key es initState addrInv_init

/-- C9: after any sequence of attach_device calls the device table
holds pairwise-distinct addresses in [1,127]; attach_device hands out
the current value of the monotonically advancing address counter
(starting at 1) together with the first free slot, and fails with
NoFreeSlots - leaving the table unchanged - when the next address would
reach 128 or no free slot exists. -/
theorem c9_device_addresses :
    (∀ (es : List (Option UsbError × Option UsbError × Option UsbError))
       (i j a : Nat), i < j →
      (run_attaches es).devices[i]? = some (some a) →
      (run_attaches es).devices[j]? ≠ some (some a)) ∧
    (∀ (es : List (Option UsbError × Option UsbError × Option UsbError))
       (a : Nat), some a ∈ (run_attaches es).devices → 1 ≤ a ∧ a ≤ 127) ∧
    initState.next_address = 1 ∧
    (∀ (s : CtrlState) (e1 e2 e3 : Option UsbError),
      s.next_address ≤ (attach_device s e1 e2 e3).1.next_address) ∧
    (∀ (s : CtrlState) (e1 e2 e3 : Option UsbError), 128 ≤ s.next_address →
      attach_device s e1 e2 e3 = (s, some UsbError.NoFreeSlots)) ∧
    (∀ (s : CtrlState) (e1 e2 e3 : Option UsbError),
      findFreeSlot s.devices = none →
      attach_device s e1 e2 e3 = (s, some UsbError.NoFreeSlots)) ∧
    (∀ (s : CtrlState) (slot : Nat), ¬128 ≤ s.next_address →
      findFreeSlot s.devices = some slot →
      attach_device s none none none =
        (⟨s.devices.set slot (some s.next_address), s.next_address + 1⟩,
         none)) := by
  refine ⟨?_, ?_, rfl, ?_, ?_, ?_, ?_⟩
  · intro es i j a hij hi
    exact (addrInv_run es).2.2.2 i j a hij hi
  · intro es a ha
    have h2 := (addrInv_run es).2.1
    have h3 := (addrInv_run es).2.2.1 a ha
    omega
  · intro s e1 e2 e3
    by_cases hlt : 128 ≤ s.next_address
    · simp [attach_device, if_pos hlt]
    · cases hslot : findFreeSlot s.devices with
      | none => simp [attach_device, if_neg hlt, hslot]
      | some slot =>
        cases e1 <;> cases e2 <;> cases e3 <;>
          simp [attach_device, if_neg hlt, hslot]
  · intro s e1 e2 e3 hlt
    simp [attach_device, if_pos hlt]
  · intro s e1 e2 e3 hslot
    by_cases hlt : 128 ≤ s.next_address
    · simp [attach_device, if_pos hlt]
    · simp [attach_device, if_neg hlt, hslot]
  · intro s slot hlt hslot
    simp [attach_device, if_neg hlt, hslot]

/-! ### Witnesses: each hypothesis-bearing claim theorem evaluated at a
concrete input -/

/-- Witness for the C1 theorem at concrete tokens: a successful transfer
with token bit 31 clear stores toggle `true`; a timed-out transfer
leaves the toggles unchanged. -/
theorem c1_toggle_update_witness :
    is_complete 0 = true ∧ has_error 0 = false ∧
    (bulk_transfer_step false false true [] 0 []).1 = (true, false) ∧
    is_complete TOKEN_ACTIVE = false ∧
    (bulk_transfer_step true false true [] TOKEN_ACTIVE []).1 = (true, false) :=
  ⟨by decide, by decide,
   ((c1_toggle_update false false true [] [] 0 (by decide)).1 (by decide)
     (by decide)).trans (by decide),
   by decide,
   (c1_toggle_update true false true [] [] TOKEN_ACTIVE (by decide)).2
     (Or.inl (by decide))⟩

/-- Witness for the C3 theorem at a concrete timed-out transfer. -/
theorem c3_timeout_path_witness :
    (control_transfer_model 0x21 (fun _ => IAA) 1 true none 0 0 TOKEN_ACTIVE
      []).2 = .error UsbError.Timeout ∧
    (control_transfer_model 0x21 (fun _ => IAA) 1 true none 0 0 TOKEN_ACTIVE
      []).1.filter is_iaad_write = [RegOp.writeCmd (0x21 ||| IAAD)] ∧
    (control_transfer_model 0x21 (fun _ => IAA) 1 true none 0 0 TOKEN_ACTIVE
      []).1.filter is_reset_write = [] :=
  ⟨(c3_timeout_path 0x21 (fun _ => IAA) 1 true none 0 0 TOKEN_ACTIVE []
      (by decide) (by decide)).1,
   (c3_timeout_path 0x21 (fun _ => IAA) 1 true none 0 0 TOKEN_ACTIVE []
      (by decide) (by decide)).2.1,
   (c3_timeout_path 0x21 (fun _ => IAA) 1 true none 0 0 TOKEN_ACTIVE []
      (by decide) (by decide)).2.2⟩

/-- Witness for the C4 theorem at concrete tokens on the four
error-mapping outcomes and the unlink-before-error property. -/
theorem c4_error_mapping_witness :
    (bulk_transfer_step false false true [] TOKEN_HALTED []).2 =
      .error UsbError.Stall ∧
    (bulk_transfer_step false false true [] TOKEN_XACT_ERROR []).2 =
      .error UsbError.TransactionError ∧
    control_transfer_result true (some []) 0 0 TOKEN_HALTED [] =
      .error UsbError.Stall ∧
    control_transfer_result true (some []) 0 0 TOKEN_XACT_ERROR [] =
      .error UsbError.TransactionError ∧
    RegOp.unlink ∈
      (control_transfer_model 0 (fun _ => 0) 1 true none 0 0 TOKEN_ACTIVE
        []).1 :=
  ⟨(c4_error_mapping.1 false false true [] [] TOKEN_HALTED (by decide)
      (by decide)).1 (by decide),
   (c4_error_mapping.1 false false true [] [] TOKEN_XACT_ERROR (by decide)
      (by decide)).2 (by decide),
   (c4_error_mapping.2.1 true (some []) 0 0 TOKEN_HALTED [] (by decide)
      (by decide)).1 (by decide),
   (c4_error_mapping.2.1 true (some []) 0 0 TOKEN_XACT_ERROR [] (by decide)
      (by decide)).2 (by decide),
   c4_error_mapping.2.2 0 (fun _ => 0) 1 true none 0 0 TOKEN_ACTIVE []
     UsbError.Timeout (by decide)⟩

/-- Witness for the C5 theorem at a concrete 18-byte IN control
transfer and at a no-data transfer. -/
theorem c5_control_chain_witness :
    ((build_control_chain 0 0 0 18 true).setup_qtd.token >>> 16) &&& 0x7FFF =
      8 ∧
    (build_control_chain 0 0 0 18 true).status_qtd.token.testBit 15 = true ∧
    (build_control_chain 0 0 0 0 true).data_qtd = none ∧
    (build_control_chain 0 0 0 0 true).setup_qtd.next_qtd =
      (build_control_chain 0 0 0 0 true).status_addr :=
  ⟨(c5_control_chain 0 0 0 18 true _ (by decide) rfl).2.2.1,
   (c5_control_chain 0 0 0 18 true _ (by decide) rfl).2.2.2.2.2.2.2,
   ((c5_control_chain 0 0 0 0 true _ (by decide) rfl).2.2.2.2.1 rfl).1,
   ((c5_control_chain 0 0 0 0 true _ (by decide) rfl).2.2.2.2.1 rfl).2⟩

/-- Witness for the C6 theorem at concrete port-register values: an
empty port, a K-state port, and a port that enables after reset and is
attached. -/
theorem c6_port_classification_witness :
    enumerate_port 0 0 0 0 0 = [RegOp.readPort 0 0] ∧
    enumerate_port 0 (CCS ||| LS_KSTATE) 0 0 0 =
      [RegOp.readPort 0 (CCS ||| LS_KSTATE),
       RegOp.writePort 0 ((CCS ||| LS_KSTATE) ||| PO)] ∧
    RegOp.attach 0 ∉ enumerate_port 0 (CCS ||| LS_KSTATE) 0 0 0 ∧
    enumerate_port 0 CCS 0 PR (CCS ||| PE) =
      [RegOp.readPort 0 CCS, RegOp.readPort 0 0,
       RegOp.writePort 0 ((0 &&& not32 PE) ||| PR), RegOp.delay 50,
       RegOp.readPort 0 PR, RegOp.writePort 0 (PR &&& not32 PR),
       RegOp.delay 10, RegOp.readPort 0 (CCS ||| PE),
       RegOp.writePort 0 ((CCS ||| PE) ||| W1C_MASK), RegOp.attach 0] :=
  ⟨(c6_port_classification 0 0 0 0 0).1 (by decide),
   ((c6_port_classification 0 (CCS ||| LS_KSTATE) 0 0 0).2.1 (by decide)
     (by decide)).1,
   ((c6_port_classification 0 (CCS ||| LS_KSTATE) 0 0 0).2.1 (by decide)
     (by decide)).2.2.1,
   ((c6_port_classification 0 CCS 0 PR (CCS ||| PE)).2.2 (by decide)
     (by decide)).2.2.2 (by decide)⟩

/-- Witness for the C7 theorem at a concrete register model whose polls
succeed on the first read. -/
theorem c7_cleanup_ordering_witness :
    (cleanup_model 0x61 0x61 0x31 (fun _ => 0) (fun _ => 0)
      (fun _ => 0x1000) 1 1 1).filter is_write_op =
      [RegOp.writeCmd (0x61 &&& not32 ASE), RegOp.writeCmd (0x61 &&& not32 PSE),
       RegOp.writeCmd (0x31 &&& not32 RS), RegOp.writeCfg 0] ∧
    RegOp.readSts 0 ∈ cleanup_model 0x61 0x61 0x31 (fun _ => 0) (fun _ => 0)
      (fun _ => 0x1000) 1 1 1 ∧
    RegOp.readSts 0x1000 ∈ cleanup_model 0x61 0x61 0x31 (fun _ => 0)
      (fun _ => 0) (fun _ => 0x1000) 1 1 1 :=
  ⟨(c7_cleanup_ordering 0x61 0x61 0x31 (fun _ => 0) (fun _ => 0)
      (fun _ => 0x1000) 1 1 1).1,
   (c7_cleanup_ordering 0x61 0x61 0x31 (fun _ => 0) (fun _ => 0)
      (fun _ => 0x1000) 1 1 1).2.1 (by decide),
   (c7_cleanup_ordering 0x61 0x61 0x31 (fun _ => 0) (fun _ => 0)
      (fun _ => 0x1000) 1 1 1).2.2.2 (by decide)⟩

/-- Witness for the C8 theorem at a concrete 4-byte IN transfer with a
residual count of 1. -/
theorem c8_control_copyback_witness :
    control_transfer_result true (some [1, 2, 3, 4]) 0 (1 <<< 16) 0
      [9, 8, 7, 6] = .ok (3, some [9, 8, 7, 4]) ∧
    control_transfer_result false (some [1, 2, 3, 4]) 0 (1 <<< 16) 0
      [9, 8, 7, 6] = .ok (4, some [1, 2, 3, 4]) ∧
    control_transfer_result true none 0 (1 <<< 16) 0 [9, 8, 7, 6] =
      .ok (0, none) :=
  ⟨((c8_control_copyback [1, 2, 3, 4] [9, 8, 7, 6] 0 (1 <<< 16) 0 (by decide)
      (by decide) (by decide) (by decide) (by decide)).1).trans (by decide),
   (c8_control_copyback [1, 2, 3, 4] [9, 8, 7, 6] 0 (1 <<< 16) 0 (by decide)
      (by decide) (by decide) (by decide) (by decide)).2.2.1,
   (c8_control_copyback [1, 2, 3, 4] [9, 8, 7, 6] 0 (1 <<< 16) 0 (by decide)
      (by decide) (by decide) (by decide) (by decide)).2.2.2.1⟩

/-- Witness for the C9 theorem: two successful attaches give distinct
addresses in range; a full counter or a full table is rejected
unchanged; a fresh attach stores address 1 in slot 0. -/
theorem c9_device_addresses_witness :
    (run_attaches [(none, none, none), (none, none, none)]).devices[1]? ≠
      some (some 1) ∧
    (1 ≤ 1 ∧ 1 ≤ 127) ∧
    attach_device ⟨List.replicate 8 (some 3), 128⟩ none none none =
      (⟨List.replicate 8 (some 3), 128⟩, some UsbError.NoFreeSlots) ∧
    attach_device ⟨List.replicate 8 (some 3), 5⟩ none none none =
      (⟨List.replicate 8 (some 3), 5⟩, some UsbError.NoFreeSlots) ∧
    attach_device initState none none none =
      (⟨initState.devices.set 0 (some initState.next_address),
        initState.next_address + 1⟩, none) :=
  ⟨c9_device_addresses.1 [(none, none, none), (none, none, none)] 0 1 1
     (by decide) (by decide),
   c9_device_addresses.2.1 [(none, none, none)] 1 (by decide),
   c9_device_addresses.2.2.2.2.1 ⟨List.replicate 8 (some 3), 128⟩ none none
     none (by decide),
   c9_device_addresses.2.2.2.2.2.1 ⟨List.replicate 8 (some 3), 5⟩ none none
     none (by decide),
   c9_device_addresses.2.2.2.2.2.2 initState 0 (by decide) (by decide)⟩

/-- Witness for the C10 theorem at a concrete bulk and control
transfer. -/
theorem c10_no_overrun_witness :
    bytes_transferred (2 ^ 31) (List.length ([5, 6] : List Nat)) ≤
      List.length ([5, 6] : List Nat) ∧
    2 ≤ List.length ([5, 6] : List Nat) ∧
    3 ≤ List.length ([1, 2, 3, 4] : List Nat) :=
  ⟨(c10_no_overrun false false true [5, 6] [7, 8] [1, 2, 3, 4] [9, 8, 7, 6]
      (2 ^ 31) 0 (1 <<< 16) 0).1,
   (c10_no_overrun false false true [5, 6] [7, 8] [1, 2, 3, 4] [9, 8, 7, 6]
      (2 ^ 31) 0 (1 <<< 16) 0).2.1 2 [7, 8] (by decide),
   (c10_no_overrun false false true [5, 6] [7, 8] [1, 2, 3, 4] [9, 8, 7, 6]
      (2 ^ 31) 0 (1 <<< 16) 0).2.2 3 (some [9, 8, 7, 4]) (by decide)⟩

end Ehci
